import Mathlib

/-!
# LoRaBitDogLab: frame codec, reliable send, adaptive rate control and CAD channel access

A shallow embedding of `src/LoRa_Adaptive.cpp`, `src/LoRa_Duplex.cpp` and
`src/LoRa_CAD.cpp`.  Global variables of each program become the fields of a state record,
every function becomes a state transformer, and everything the program obtains from outside
(the millisecond clock, packets delivered by the radio, results of channel-activity probes,
`rand()`) is an explicit argument.

Conventions
* `int`/`long` values are `Int`; bytes (`uint8_t`, `char`) are `Nat` and every conversion to a
  byte is an explicit `% 256`.
* `to_ms_since_boot` returns a 32-bit unsigned value, so a difference of two clock readings is
  taken modulo `2^32` (`elapsedMs`).
* `float lastSnr` is a rational number: the only operation on it is the comparison with `10.0`.
* The radio driver (`LoRa`) is outside the repository.  Its packet buffer is a list of bytes,
  `write` appends one byte, `print` appends the characters of a NUL-terminated C string,
  `read` removes the first byte and yields `-1` on an empty buffer, and `endPacket` hands the
  buffer to the air (recorded in `Radio.sent`).
-/

namespace LoRa

/-! ## Driver primitives shared by the three programs -/

/-- Conversion of an `int` to `byte`/`char` (`uint8_t`). -/
def toByte (x : Int) : Nat := (x % 256).toNat

/-- The characters `LoRa.print(const char*)` sees: everything before the first NUL. -/
def cStr (message : List Nat) : List Nat := message.takeWhile (fun c => c != 0)

/-- Driver `LoRa.write(uint8_t)`: one byte is appended to the packet under construction. -/
def write (pkt : List Nat) (b : Nat) : List Nat := pkt ++ [b % 256]

/-- Driver `LoRa.print(message.c_str())`: the characters of the C string are appended. -/
def print (pkt : List Nat) (message : List Nat) : List Nat := pkt ++ cStr message

/-- Driver `LoRa.read()`: next byte of the received packet, `-1` when none is left. -/
def read : List Nat → Int × List Nat
  | [] => (-1, [])
  | b :: rest => ((b : Int), rest)

/-- The loop `while (LoRa.available()) message += (char)LoRa.read();`. -/
def readAll : List Nat → List Nat
  | [] => []
  | b :: rest => toByte (read (b :: rest)).1 :: readAll rest

/-- Difference of two readings of the 32-bit millisecond clock, as the unsigned subtraction
`to_ms_since_boot(get_absolute_time()) - t` computes it. -/
def elapsedMs (now t : Int) : Int := (now - t) % 4294967296

/-- The literal `"ACK"`. -/
def ACK : List Nat := [65, 67, 75]

/-! ## Frame parsing (identical in `LoRa_Adaptive.cpp` and `LoRa_Duplex.cpp`) -/

/-- Outcome of the first part of `onReceive` (up to and including the length check). -/
inductive Parsed where
  | ignored
  | lengthMismatch
  | frame (recipient sender incomingMsgId incomingLength : Nat) (message : List Nat)
deriving DecidableEq, Repr

/-- Lines `if (packetSize == 0) return;` to `if (incomingLength != message.length())` of
`onReceive`: four header bytes are read, the rest of the packet is the message. -/
def parsePacket (bytes : List Nat) : Parsed :=
  if bytes.length = 0 then Parsed.ignored
  else
    let r0 := read bytes
    let recipient := toByte r0.1
    let r1 := read r0.2
    let sender := toByte r1.1
    let r2 := read r1.2
    let incomingMsgId := toByte r2.1
    let r3 := read r2.2
    let incomingLength := toByte r3.1
    let message := readAll r3.2
    if incomingLength ≠ message.length then Parsed.lengthMismatch
    else Parsed.frame recipient sender incomingMsgId incomingLength message

/-- Header and payload as `sendMessage` writes them between `beginPacket` and `endPacket`. -/
def frameBytes (dst src msgId : Nat) (message : List Nat) : List Nat :=
  print (write (write (write (write [] dst) src) msgId) message.length) message

end LoRa

/-! ## `LoRa_Adaptive.cpp` -/

namespace Adaptive

open LoRa

def localAddress : Nat := 0xBB
def destinationAddress : Nat := 0xAA
def adaptationThreshold : Int := 3
def ackTimeout : Int := 1000
def adaptationCooldown : Int := 10000

structure LoRaConfig where
  sf : Int
  bw : Int
  cr : Int
  txPower : Int
deriving DecidableEq, Repr

def CONFIG_LONG_RANGE : LoRaConfig := { sf := 12, bw := 62500, cr := 8, txPower := 20 }
def CONFIG_BALANCED : LoRaConfig := { sf := 9, bw := 125000, cr := 6, txPower := 17 }
def CONFIG_HIGH_DATA : LoRaConfig := { sf := 7, bw := 250000, cr := 5, txPower := 15 }

/-- What the transceiver has been told: the four modulation parameters last set through the
driver, and the packets handed to `endPacket`, oldest first. -/
structure Radio where
  spreadingFactor : Int
  signalBandwidth : Int
  codingRate : Int
  txPower : Int
  sent : List (List Nat)
deriving DecidableEq, Repr

/-- The global variables of the program, plus the radio. -/
structure State where
  txPower : Int
  spreadingFactor : Int
  signalBandwidth : Int
  codingRate : Int
  msgCount : Nat
  lastRssi : Int
  lastSnr : ℚ
  consecutiveFails : Int
  consecutiveSuccess : Int
  ackReceived : Bool
  lastAdaptationTime : Int
  currentConfig : LoRaConfig
  radio : Radio
deriving DecidableEq

/-- A packet as the driver delivers it to `onReceive`, with the link quality it reports. -/
structure Packet where
  bytes : List Nat
  rssi : Int
  snr : ℚ
deriving DecidableEq

/-- Function `applyConfig`; `stamp` is the clock reading it stores in `lastAdaptationTime`. -/
def applyConfig (config : LoRaConfig) (stamp : Int) (s : State) : State :=
  { s with
    spreadingFactor := config.sf
    signalBandwidth := config.bw
    codingRate := config.cr
    txPower := config.txPower
    radio := { s.radio with
      spreadingFactor := config.sf
      signalBandwidth := config.bw
      codingRate := config.cr
      txPower := config.txPower }
    lastAdaptationTime := stamp
    consecutiveFails := 0
    consecutiveSuccess := 0 }

/-- The `newConfig` computed in the first branch of `adaptParameters` (towards range). -/
def degradeStep (c : LoRaConfig) : LoRaConfig :=
  if c.sf < 12 then { c with sf := c.sf + 1 }
  else if c.bw > 62500 then
    if c.bw = 250000 then { c with bw := 125000 }
    else if c.bw = 125000 then { c with bw := 62500 }
    else c
  else if c.cr < 8 then { c with cr := c.cr + 1 }
  else if c.txPower < 20 then { c with txPower := c.txPower + 1 }
  else CONFIG_LONG_RANGE

/-- Path condition of the final `else` of the first branch (`newConfig = CONFIG_LONG_RANGE`):
all four preceding tests fail. -/
def degradeSnaps (c : LoRaConfig) : Bool :=
  !decide (c.sf < 12) && !decide (c.bw > 62500) && !decide (c.cr < 8) && !decide (c.txPower < 20)

/-- The `newConfig` computed in the second branch of `adaptParameters` (towards data rate). -/
def upgradeStep (lastRssi : Int) (c : LoRaConfig) : LoRaConfig :=
  if c.sf > 7 then { c with sf := c.sf - 1 }
  else if c.bw < 250000 then
    if c.bw = 62500 then { c with bw := 125000 }
    else if c.bw = 125000 then { c with bw := 250000 }
    else c
  else if c.cr > 5 then { c with cr := c.cr - 1 }
  else if c.txPower > 15 ∧ lastRssi > -70 then { c with txPower := c.txPower - 1 }
  else CONFIG_HIGH_DATA

/-- Function `adaptParameters`; `now` is the clock reading of the cooldown test and `stamp`
the later reading taken by `applyConfig`. -/
def adaptParameters (now stamp : Int) (s : State) : State :=
  if elapsedMs now s.lastAdaptationTime < adaptationCooldown then s
  else if s.consecutiveFails ≥ adaptationThreshold then
    let newConfig := degradeStep s.currentConfig
    applyConfig newConfig stamp { s with currentConfig := newConfig }
  else if s.consecutiveSuccess ≥ adaptationThreshold ∧ s.lastSnr > 10 ∧ s.lastRssi > -80 then
    let newConfig := upgradeStep s.lastRssi s.currentConfig
    applyConfig newConfig stamp { s with currentConfig := newConfig }
  else s

/-- Function `sendAck`. -/
def sendAck (toAddress msgId : Nat) (s : State) : State :=
  let pkt := print (write (write (write (write [] toAddress) localAddress) msgId) 3) ACK
  { s with radio := { s.radio with sent := s.radio.sent ++ [pkt] } }

/-- Function `onReceive`, run by the driver for every packet it has received. -/
def onReceive (s : State) (p : Packet) : State :=
  match parsePacket p.bytes with
  | Parsed.ignored => s
  | Parsed.lengthMismatch => s
  | Parsed.frame recipient sender incomingMsgId _ message =>
    let s1 := { s with lastRssi := p.rssi, lastSnr := p.snr }
    if recipient = localAddress then
      if message = ACK then { s1 with ackReceived := true }
      else sendAck sender incomingMsgId s1
    else s1

/-- One pass of the polling loop of `sendMessage` as the environment drives it: the clock
reading used by the loop test, and the packets the driver delivers to `onReceive` while the
loop body `sleep_ms(10)` is asleep. -/
structure Poll where
  now : Int
  inbound : List Packet
deriving DecidableEq

/-- Everything one call of `sendMessage` obtains from outside: the clock reading stored in
`ackStartTime`, the passes of the polling loop, and the clock readings of `adaptParameters`
and `applyConfig`. -/
structure SendEnv where
  ackStartTime : Int
  polls : List Poll
  adaptNow : Int
  applyNow : Int

/-- First part of `sendMessage`: the frame is built and handed to the radio, then
`ackReceived = false`. -/
def transmit (message : List Nat) (s : State) : State :=
  let pkt := frameBytes destinationAddress localAddress s.msgCount message
  { s with radio := { s.radio with sent := s.radio.sent ++ [pkt] }, ackReceived := false }

/-- The loop `while (!ackReceived && (clock - ackStartTime < ackTimeout)) sleep_ms(10);`.
The result is `none` when the description of the environment ends before the loop does. -/
def awaitAck (ackStartTime : Int) : State → List Poll → Option State
  | _, [] => none
  | s, p :: rest =>
    if !s.ackReceived && decide (elapsedMs p.now ackStartTime < ackTimeout) then
      awaitAck ackStartTime (p.inbound.foldl onReceive s) rest
    else some s

/-- The `if (ackReceived) ... else ...` that follows the loop. -/
def recordOutcome (s : State) : State :=
  if s.ackReceived then
    { s with consecutiveSuccess := s.consecutiveSuccess + 1, consecutiveFails := 0 }
  else
    { s with consecutiveFails := s.consecutiveFails + 1, consecutiveSuccess := 0 }

/-- State of `sendMessage` when the polling loop has just ended. -/
def sendMessageWait (message : List Nat) (env : SendEnv) (s : State) : Option State :=
  awaitAck env.ackStartTime (transmit message s) env.polls

/-- State of `sendMessage` right before its last statement, the call of `adaptParameters`. -/
def sendMessageOutcome (message : List Nat) (env : SendEnv) (s : State) : Option State :=
  (sendMessageWait message env s).map recordOutcome

/-- Function `sendMessage`. -/
def sendMessage (message : List Nat) (env : SendEnv) (s : State) : Option State :=
  (sendMessageOutcome message env s).map (adaptParameters env.adaptNow env.applyNow)

/-- The statement `msgCount++;` on a `uint8_t`. -/
def nextMsg (s : State) : State := { s with msgCount := (s.msgCount + 1) % 256 }

/-- Body of the `if` in the main loop: `sendMessage(message); ... msgCount++;`. -/
def sendCycle (message : List Nat) (env : SendEnv) (s : State) : Option State :=
  (sendMessage message env s).map nextMsg

/-- What remains of `sendMessage` once the polling loop has ended in state `a`, followed
by the `msgCount++` of the main loop. -/
def afterWait (env : SendEnv) (a : State) : State :=
  nextMsg (adaptParameters env.adaptNow env.applyNow (recordOutcome a))

/-- The initialisers of the global variables; `radio` is the transceiver as `LoRa.begin`
leaves it. -/
def initialState (radio : Radio) : State :=
  { txPower := 17
    spreadingFactor := 7
    signalBandwidth := 125000
    codingRate := 5
    msgCount := 0
    lastRssi := 0
    lastSnr := 0
    consecutiveFails := 0
    consecutiveSuccess := 0
    ackReceived := false
    lastAdaptationTime := 0
    currentConfig := CONFIG_BALANCED
    radio := radio }

/-- The statements `currentConfig = CONFIG_BALANCED; applyConfig(currentConfig);` of `main`;
`stamp` is the clock reading taken by `applyConfig`. -/
def startUp (radio : Radio) (stamp : Int) : State :=
  applyConfig CONFIG_BALANCED stamp { initialState radio with currentConfig := CONFIG_BALANCED }

/-- A transceiver that has sent nothing yet. -/
def freshRadio : Radio :=
  { spreadingFactor := 7, signalBandwidth := 125000, codingRate := 5, txPower := 17, sent := [] }

/-! ### A concrete run: three sends that nobody answers -/

/-- An environment in which no packet arrives: the loop test is evaluated at `t` and again at
`t + 1000`, when the timeout has expired, and the adaptation is evaluated at that time. -/
def silentEnv (t : Int) : SendEnv :=
  { ackStartTime := t, polls := [⟨t, []⟩, ⟨t + 1000, []⟩], adaptNow := t + 1000,
    applyNow := t + 1000 }

/-- The characters `Msg`. -/
def sampleMessage : List Nat := [77, 115, 103]

def run0 : State := startUp freshRadio 0
def wait1 : State := transmit sampleMessage run0
def run1 : State := afterWait (silentEnv 12000) wait1
def wait2 : State := transmit sampleMessage run1
def run2 : State := afterWait (silentEnv 15000) wait2
def wait3 : State := transmit sampleMessage run2
def run3 : State := afterWait (silentEnv 18000) wait3

/-- An environment in which the peer answers: its ACK for message 0 arrives during the first
sleep of the polling loop. -/
def answeredEnv (t : Int) : SendEnv :=
  { ackStartTime := t
    polls := [⟨t, [⟨[187, 170, 0, 3, 65, 67, 75], -60, 11⟩]⟩, ⟨t + 10, []⟩, ⟨t + 1000, []⟩]
    adaptNow := t + 10
    applyNow := t + 10 }

/-- An environment in which the peer answers with the given link quality: its ACK arrives
during the first sleep of the polling loop. -/
def ackedEnv (t rssi : Int) (snr : ℚ) : SendEnv :=
  { ackStartTime := t
    polls := [⟨t, [⟨[187, 170, 0, 3, 65, 67, 75], rssi, snr⟩]⟩, ⟨t + 10, []⟩]
    adaptNow := t + 10
    applyNow := t + 10 }

/-- A run of `n` passes of the main loop, one every 4 s from clock reading `t`, each send
answered with the given link quality. -/
def linkRun (rssi : Int) (snr : ℚ) : Nat → Int → State → Option State
  | 0, _, s => some s
  | n + 1, t, s =>
    (sendCycle sampleMessage (ackedEnv t rssi snr) s).bind (linkRun rssi snr n (t + 4000))

/-! ### The profile ranges and step rules of the specification -/

/-- The ranges the specification gives for a radio profile. -/
def ValidProfile (c : LoRaConfig) : Prop :=
  (7 ≤ c.sf ∧ c.sf ≤ 12) ∧ (c.bw = 62500 ∨ c.bw = 125000 ∨ c.bw = 250000) ∧
    (5 ≤ c.cr ∧ c.cr ≤ 8) ∧ (2 ≤ c.txPower ∧ c.txPower ≤ 20)

instance (c : LoRaConfig) : Decidable (ValidProfile c) := by
  unfold ValidProfile; infer_instance

/-- The degrade rule in the words of the specification: the first applicable step of
sf+1 if sf < 12; bandwidth one step down 250000, 125000, 62500; cr+1 if cr < 8;
txPower+1 if txPower < 20; else the long-range profile. -/
def degradeSpec (c : LoRaConfig) : LoRaConfig :=
  if c.sf < 12 then ⟨c.sf + 1, c.bw, c.cr, c.txPower⟩
  else if c.bw = 250000 then ⟨c.sf, 125000, c.cr, c.txPower⟩
  else if c.bw = 125000 then ⟨c.sf, 62500, c.cr, c.txPower⟩
  else if c.cr < 8 then ⟨c.sf, c.bw, c.cr + 1, c.txPower⟩
  else if c.txPower < 20 then ⟨c.sf, c.bw, c.cr, c.txPower + 1⟩
  else ⟨12, 62500, 8, 20⟩

/-- The upgrade rule in the words of the specification: the first applicable step of
sf-1 if sf > 7; bandwidth one step up 62500, 125000, 250000; cr-1 if cr > 5;
txPower-1 if txPower > 15 and lastRssi > -70; else the high-data-rate profile. -/
def upgradeSpec (lastRssi : Int) (c : LoRaConfig) : LoRaConfig :=
  if c.sf > 7 then ⟨c.sf - 1, c.bw, c.cr, c.txPower⟩
  else if c.bw = 62500 then ⟨c.sf, 125000, c.cr, c.txPower⟩
  else if c.bw = 125000 then ⟨c.sf, 250000, c.cr, c.txPower⟩
  else if c.cr > 5 then ⟨c.sf, c.bw, c.cr - 1, c.txPower⟩
  else if c.txPower > 15 ∧ lastRssi > -70 then ⟨c.sf, c.bw, c.cr, c.txPower - 1⟩
  else ⟨7, 250000, 5, 15⟩

/-- The profile and what has been applied agree: the four parameters set on the
transceiver, and the four global variables mirroring them, equal the fields of
`currentConfig`. -/
def Synced (s : State) : Prop :=
  (s.radio.spreadingFactor = s.currentConfig.sf ∧ s.radio.signalBandwidth = s.currentConfig.bw ∧
    s.radio.codingRate = s.currentConfig.cr ∧ s.radio.txPower = s.currentConfig.txPower) ∧
  (s.spreadingFactor = s.currentConfig.sf ∧ s.signalBandwidth = s.currentConfig.bw ∧
    s.codingRate = s.currentConfig.cr ∧ s.txPower = s.currentConfig.txPower)

instance (s : State) : Decidable (Synced s) := by
  unfold Synced; infer_instance

/-- The states the program can be in once `main` has applied the initial configuration.
Every statement group that changes a global variable is a step: a packet handled by
`onReceive`, and the parts of `sendMessage` (transmission, outcome accounting, the
adaptation evaluation) and the `msgCount++` of the main loop, taken in any order and with
any clock readings, which covers every order in which the program runs them. -/
inductive Reachable : State → Prop where
  | start (radio : Radio) (stamp : Int) : Reachable (startUp radio stamp)
  | receive {s : State} (p : Packet) : Reachable s → Reachable (onReceive s p)
  | transmit {s : State} (message : List Nat) : Reachable s → Reachable (transmit message s)
  | record {s : State} : Reachable s → Reachable (recordOutcome s)
  | adapt {s : State} (now stamp : Int) : Reachable s → Reachable (adaptParameters now stamp s)
  | count {s : State} : Reachable s → Reachable (nextMsg s)

/-- The degrade step applied `n` times in a row. -/
def degradeIter : Nat → LoRaConfig → LoRaConfig
  | 0, c => c
  | n + 1, c => degradeIter n (degradeStep c)

/-- One field moves one step towards range and the other three stay: sf+1, or bandwidth
250000 to 125000 or 125000 to 62500, or cr+1, or txPower+1. -/
def SingleDegrade (c d : LoRaConfig) : Prop :=
  (d.sf = c.sf + 1 ∧ d.bw = c.bw ∧ d.cr = c.cr ∧ d.txPower = c.txPower) ∨
  (d.sf = c.sf ∧ ((c.bw = 250000 ∧ d.bw = 125000) ∨ (c.bw = 125000 ∧ d.bw = 62500)) ∧
    d.cr = c.cr ∧ d.txPower = c.txPower) ∨
  (d.sf = c.sf ∧ d.bw = c.bw ∧ d.cr = c.cr + 1 ∧ d.txPower = c.txPower) ∨
  (d.sf = c.sf ∧ d.bw = c.bw ∧ d.cr = c.cr ∧ d.txPower = c.txPower + 1)

instance (c d : LoRaConfig) : Decidable (SingleDegrade c d) := by
  unfold SingleDegrade; infer_instance

/-- Number of single steps between a profile and the long-range profile: steps of sf up to
12, of bandwidth down to 62500, of cr up to 8 and of txPower up to 20. -/
def stepsToLongRange (c : LoRaConfig) : Nat :=
  (12 - c.sf).toNat + (if c.bw = 250000 then 2 else if c.bw = 125000 then 1 else 0) +
    (8 - c.cr).toNat + (20 - c.txPower).toNat

end Adaptive

/-! ## `LoRa_Duplex.cpp` -/

namespace Duplex

open LoRa

def localAddress : Nat := 0xBB
def destinationAddress : Nat := 0xAA

/-- The global `msgCount` and the packets handed to the radio, oldest first. -/
structure State where
  msgCount : Nat
  sent : List (List Nat)
deriving DecidableEq, Repr

/-- What `onReceive` reports on the console. -/
inductive Shown where
  | nothing
  | lengthError
  | notForThisDevice
  | received (sender incomingMsgId incomingLength : Nat) (message : List Nat)
deriving DecidableEq, Repr

/-- Function `sendMessage` of the duplex program. -/
def sendMessage (message : List Nat) (s : State) : State :=
  { s with sent := s.sent ++ [frameBytes destinationAddress localAddress s.msgCount message] }

/-- Function `onReceive` of the duplex program. -/
def onReceive (bytes : List Nat) : Shown :=
  match parsePacket bytes with
  | Parsed.ignored => Shown.nothing
  | Parsed.lengthMismatch => Shown.lengthError
  | Parsed.frame recipient sender incomingMsgId incomingLength message =>
    if recipient ≠ localAddress ∧ recipient ≠ 0xFF then Shown.notForThisDevice
    else Shown.received sender incomingMsgId incomingLength message

end Duplex

/-! ## `LoRa_CAD.cpp` -/

namespace CAD

open LoRa

def maxCadAttempts : Int := 10

/-- The globals `channelBusy` and `cadAttempts`, and what the program has asked of the
driver and the timer: the number of `LoRa.channelActivityDetection()` calls (`probes`),
whether the result of the latest probe is still to be delivered (`pending`), the durations
of the `sleep_ms(backoff)` calls (`backoffs`) and the packets transmitted (`sent`). -/
structure State where
  channelBusy : Bool
  cadAttempts : Int
  probes : Nat
  pending : Bool
  backoffs : List Nat
  sent : List (List Nat)
deriving DecidableEq, Repr

/-- The environment of the channel check: the result the driver reports for the probe
number n (counted from 1), and the value `rand()` returns at the n-th backoff (from 0). -/
structure Env where
  activity : Nat → Bool
  rand : Nat → Nat

/-- Driver `LoRa.channelActivityDetection()`: a probe is started; its result arrives later
through `onCadDone`. -/
def channelActivityDetection (s : State) : State :=
  { s with probes := s.probes + 1, pending := true }

/-- Callback `onCadDone`; `rnd` is the value of `rand()`. -/
def onCadDone (cadResult : Bool) (rnd : Nat) (s : State) : State :=
  let s1 := { s with cadAttempts := s.cadAttempts + 1 }
  if cadResult then
    if s1.cadAttempts < maxCadAttempts then
      let backoff := rnd % 200 + 100
      channelActivityDetection { s1 with backoffs := s1.backoffs ++ [backoff] }
    else { s1 with channelBusy := true }
  else { s1 with channelBusy := false }

/-- The driver delivers the result of the outstanding probe, if there is one. -/
def cadEvent (env : Env) (s : State) : State :=
  if s.pending then
    onCadDone (env.activity s.probes) (env.rand s.backoffs.length) { s with pending := false }
  else s

/-- The callbacks that run during one `sleep_ms(10)` of the waiting loop: `k` results. -/
def deliver (env : Env) : Nat → State → State
  | 0, s => s
  | k + 1, s => deliver env k (cadEvent env s)

/-- The loop `while (cadAttempts == 0) sleep_ms(10);`.  The schedule lists, pass by pass,
how many probe results are delivered during the sleep; `none` when the schedule ends while
the loop is still waiting. -/
def awaitCad (env : Env) : State → List Nat → Option State
  | s, [] => if s.cadAttempts = 0 then none else some s
  | s, k :: rest => if s.cadAttempts = 0 then awaitCad env (deliver env k s) rest else some s

/-- Function `sendMessage` of the CAD program. -/
def sendMessage (message : List Nat) (env : Env) (schedule : List Nat) (s : State) :
    Option State :=
  let s1 := channelActivityDetection { s with channelBusy := false, cadAttempts := 0 }
  match awaitCad env s1 schedule with
  | none => none
  | some s2 =>
    if s2.channelBusy then some s2
    else some { s2 with sent := s2.sent ++ [print [] message] }

/-- The initialisers of the global variables, before any probe or transmission. -/
def initialState : State :=
  { channelBusy := false, cadAttempts := 0, probes := 0, pending := false, backoffs := [],
    sent := [] }

/-- A driver that reports activity on every probe; `rand()` returns 0. -/
def alwaysBusy : Env := { activity := fun _ => true, rand := fun _ => 0 }

/-- A driver that reports no activity on any probe; `rand()` returns 0. -/
def alwaysIdle : Env := { activity := fun _ => false, rand := fun _ => 0 }

end CAD

/-! ## Facts about the driver primitives -/

namespace LoRa

theorem toByte_natCast (b : Nat) (h : b < 256) : toByte (b : Int) = b := by
  unfold toByte
  omega

theorem toByte_mod (b : Nat) : toByte ((b % 256 : Nat) : Int) = b % 256 :=
  toByte_natCast (b % 256) (Nat.mod_lt b (by decide))

theorem readAll_length (l : List Nat) : (readAll l).length = l.length := by
  induction l with
  | nil => rfl
  | cons b rest ih => simp [readAll, ih]

theorem readAll_eq (l : List Nat) (h : ∀ c ∈ l, c < 256) : readAll l = l := by
  induction l with
  | nil => rfl
  | cons b rest ih =>
    have hb : b < 256 := h b (List.mem_cons_self b rest)
    have hrest : ∀ c ∈ rest, c < 256 := fun c hc => h c (List.mem_cons_of_mem b hc)
    simp [readAll, read, toByte_natCast b hb, ih hrest]

theorem cStr_eq (l : List Nat) (h : ∀ c ∈ l, c ≠ 0) : cStr l = l := by
  unfold cStr
  rw [List.takeWhile_eq_self_iff]
  intro c hc
  simpa using h c hc

/-- The bytes of a frame, spelled out. -/
theorem frameBytes_eq (dst src msgId : Nat) (message : List Nat) :
    frameBytes dst src msgId message =
      dst % 256 :: src % 256 :: msgId % 256 :: message.length % 256 :: cStr message := by
  simp [frameBytes, print, write]

/-- Parsing a packet of at least four bytes. -/
theorem parsePacket_cons4 (d sd m l : Nat) (rest : List Nat) :
    parsePacket (d :: sd :: m :: l :: rest) =
      if toByte (l : Int) ≠ rest.length then Parsed.lengthMismatch
      else Parsed.frame (toByte d) (toByte sd) (toByte m) (toByte l) (readAll rest) := by
  simp [parsePacket, read, readAll_length]

end LoRa

/-! ## Frame codec -/

/-- C1, as the claim states it, fails: the three-character payload `a`, NUL, `b` has length
3, `sendMessage` writes the length byte 3 but `print` of the C string writes only `a`, and
the receiving side rejects the frame at the length check. -/
theorem frame_roundtrip_fails_on_nul :
    ([97, 0, 98] : List Nat).length ≤ 255 ∧
    LoRa.frameBytes 170 187 0 [97, 0, 98] = [170, 187, 0, 3, 97] ∧
    LoRa.parsePacket (LoRa.frameBytes 170 187 0 [97, 0, 98]) = LoRa.Parsed.lengthMismatch ∧
    LoRa.parsePacket (LoRa.frameBytes 170 187 0 [97, 0, 98])
      ≠ LoRa.Parsed.frame 170 187 0 3 [97, 0, 98] := by
  decide

/-- C1 (amended): for all destination, source and message id bytes and every payload of at
most 255 bytes none of which is NUL, parsing the bytes that `sendMessage` writes passes the
length check and returns the same destination, source, message id, length and payload; and
these are the bytes both programs hand to the radio. -/
theorem frame_roundtrip (dst src msgId : Nat) (message : List Nat)
    (hdst : dst < 256) (hsrc : src < 256) (hid : msgId < 256)
    (hlen : message.length ≤ 255) (hbyte : ∀ c ∈ message, c < 256)
    (hnul : ∀ c ∈ message, c ≠ 0) :
    LoRa.parsePacket (LoRa.frameBytes dst src msgId message)
        = LoRa.Parsed.frame dst src msgId message.length message ∧
      (∀ s : Adaptive.State, (Adaptive.transmit message s).radio.sent = s.radio.sent ++
        [LoRa.frameBytes Adaptive.destinationAddress Adaptive.localAddress s.msgCount message]) ∧
      (∀ s : Duplex.State, (Duplex.sendMessage message s).sent = s.sent ++
        [LoRa.frameBytes Duplex.destinationAddress Duplex.localAddress s.msgCount message]) := by
  refine ⟨?_, fun _ => rfl, fun _ => rfl⟩
  have hl : message.length % 256 = message.length := Nat.mod_eq_of_lt (by omega)
  rw [LoRa.frameBytes_eq, LoRa.parsePacket_cons4, LoRa.cStr_eq message hnul,
    LoRa.toByte_mod, LoRa.toByte_mod, LoRa.toByte_mod, LoRa.toByte_mod,
    Nat.mod_eq_of_lt hdst, Nat.mod_eq_of_lt hsrc, Nat.mod_eq_of_lt hid, hl,
    LoRa.readAll_eq message hbyte]
  simp

theorem frame_roundtrip_witness :
    LoRa.parsePacket (LoRa.frameBytes 170 187 7 [77, 115, 103])
        = LoRa.Parsed.frame 170 187 7 3 [77, 115, 103] :=
  (frame_roundtrip 170 187 7 [77, 115, 103] (by decide) (by decide) (by decide)
    (by decide) (by decide) (by decide)).1

/-- C2: a packet of at least four bytes whose fourth byte differs from the number of bytes
after it is rejected at the length check, and `onReceive` returns with the whole state as it
was: no packet (so no ACK) is handed to the radio, and `ackReceived`, `lastRssi`, `lastSnr`
and both counters keep their values.  The duplex program reports the length error and
nothing else. -/
theorem length_mismatch_rejected (s : Adaptive.State) (d sd m l : Nat) (rest : List Nat)
    (rssi : Int) (snr : ℚ) (hl : l < 256) (hne : l ≠ rest.length) :
    LoRa.parsePacket (d :: sd :: m :: l :: rest) = LoRa.Parsed.lengthMismatch ∧
      Adaptive.onReceive s ⟨d :: sd :: m :: l :: rest, rssi, snr⟩ = s ∧
      Duplex.onReceive (d :: sd :: m :: l :: rest) = Duplex.Shown.lengthError := by
  have hp : LoRa.parsePacket (d :: sd :: m :: l :: rest) = LoRa.Parsed.lengthMismatch := by
    rw [LoRa.parsePacket_cons4, LoRa.toByte_natCast l hl]
    simp [hne]
  refine ⟨hp, ?_, ?_⟩
  · simp [Adaptive.onReceive, hp]
  · simp [Duplex.onReceive, hp]

theorem length_mismatch_rejected_witness :
    Adaptive.onReceive (Adaptive.startUp Adaptive.freshRadio 0) ⟨[187, 170, 1, 5, 72, 105], -60, 9⟩
      = Adaptive.startUp Adaptive.freshRadio 0 :=
  (length_mismatch_rejected (Adaptive.startUp Adaptive.freshRadio 0) 187 170 1 5 [72, 105]
    (-60) 9 (by decide) (by decide)).2.1

/-! ## Adaptive rate controller -/

namespace Adaptive

open LoRa

theorem adaptParameters_cooldown (s : State) (now stamp : Int)
    (h : elapsedMs now s.lastAdaptationTime < 10000) : adaptParameters now stamp s = s := by
  simp [adaptParameters, adaptationCooldown, h]

theorem adaptParameters_degrade (s : State) (now stamp : Int)
    (hc : 10000 ≤ elapsedMs now s.lastAdaptationTime) (hf : 3 ≤ s.consecutiveFails) :
    adaptParameters now stamp s =
      applyConfig (degradeStep s.currentConfig) stamp
        { s with currentConfig := degradeStep s.currentConfig } := by
  have h1 : ¬ elapsedMs now s.lastAdaptationTime < 10000 := not_lt.mpr hc
  simp [adaptParameters, adaptationCooldown, adaptationThreshold, h1, hf]

theorem adaptParameters_upgrade (s : State) (now stamp : Int)
    (hc : 10000 ≤ elapsedMs now s.lastAdaptationTime) (hf : s.consecutiveFails < 3)
    (hs : 3 ≤ s.consecutiveSuccess) (hsnr : s.lastSnr > 10) (hrssi : s.lastRssi > -80) :
    adaptParameters now stamp s =
      applyConfig (upgradeStep s.lastRssi s.currentConfig) stamp
        { s with currentConfig := upgradeStep s.lastRssi s.currentConfig } := by
  have h1 : ¬ elapsedMs now s.lastAdaptationTime < 10000 := not_lt.mpr hc
  have h2 : ¬ 3 ≤ s.consecutiveFails := not_le.mpr hf
  simp [adaptParameters, adaptationCooldown, adaptationThreshold, h1, h2, hs, hsnr, hrssi]

theorem adaptParameters_idle (s : State) (now stamp : Int)
    (hf : s.consecutiveFails < 3) (hs : s.consecutiveSuccess < 3) :
    adaptParameters now stamp s = s := by
  have h2 : ¬ 3 ≤ s.consecutiveFails := not_le.mpr hf
  have h3 : ¬ 3 ≤ s.consecutiveSuccess := not_le.mpr hs
  simp [adaptParameters, adaptationThreshold, h2, h3]

theorem degradeStep_eq_spec (c : LoRaConfig) (hv : ValidProfile c) :
    degradeStep c = degradeSpec c := by
  obtain ⟨sf, bw, cr, tx⟩ := c
  obtain ⟨⟨_, _⟩, hbw, ⟨_, _⟩, ⟨_, _⟩⟩ := hv
  simp only at *
  rcases hbw with h | h | h <;> subst h <;>
    simp only [degradeStep, degradeSpec, CONFIG_LONG_RANGE] <;> split_ifs <;>
    first | rfl | omega

theorem upgradeStep_eq_spec (rssi : Int) (c : LoRaConfig) (hv : ValidProfile c) :
    upgradeStep rssi c = upgradeSpec rssi c := by
  obtain ⟨sf, bw, cr, tx⟩ := c
  obtain ⟨⟨_, _⟩, hbw, ⟨_, _⟩, ⟨_, _⟩⟩ := hv
  simp only at *
  rcases hbw with h | h | h <;> subst h <;>
    simp only [upgradeStep, upgradeSpec, CONFIG_HIGH_DATA] <;> split_ifs <;>
    first | rfl | omega

theorem degradeSnaps_iff (c : LoRaConfig) :
    degradeSnaps c = true ↔ 12 ≤ c.sf ∧ c.bw ≤ 62500 ∧ 8 ≤ c.cr ∧ 20 ≤ c.txPower := by
  simp [degradeSnaps, and_assoc]

theorem degradeStep_of_snaps (c : LoRaConfig) (h : degradeSnaps c = true) :
    degradeStep c = CONFIG_LONG_RANGE := by
  obtain ⟨h1, h2, h3, h4⟩ := (degradeSnaps_iff c).mp h
  simp [degradeStep, not_lt.mpr h1, not_lt.mpr h2, not_lt.mpr h3, not_lt.mpr h4]

/-- The fields the adaptation evaluation reads, apart from the link quality. -/
theorem onReceive_keeps (s : State) (p : Packet) :
    (onReceive s p).consecutiveFails = s.consecutiveFails ∧
    (onReceive s p).consecutiveSuccess = s.consecutiveSuccess ∧
    (onReceive s p).currentConfig = s.currentConfig ∧
    (onReceive s p).lastAdaptationTime = s.lastAdaptationTime := by
  unfold onReceive
  split
  · exact ⟨rfl, rfl, rfl, rfl⟩
  · exact ⟨rfl, rfl, rfl, rfl⟩
  · simp only [sendAck]
    split_ifs <;> exact ⟨rfl, rfl, rfl, rfl⟩

theorem foldl_onReceive_keeps (ps : List Packet) (s : State) :
    (ps.foldl onReceive s).consecutiveFails = s.consecutiveFails ∧
    (ps.foldl onReceive s).consecutiveSuccess = s.consecutiveSuccess ∧
    (ps.foldl onReceive s).currentConfig = s.currentConfig ∧
    (ps.foldl onReceive s).lastAdaptationTime = s.lastAdaptationTime := by
  induction ps generalizing s with
  | nil => exact ⟨rfl, rfl, rfl, rfl⟩
  | cons p rest ih =>
    obtain ⟨h1, h2, h3, h4⟩ := ih (onReceive s p)
    obtain ⟨k1, k2, k3, k4⟩ := onReceive_keeps s p
    exact ⟨h1.trans k1, h2.trans k2, h3.trans k3, h4.trans k4⟩

theorem awaitAck_keeps (start : Int) (polls : List Poll) (s a : State)
    (h : awaitAck start s polls = some a) :
    a.consecutiveFails = s.consecutiveFails ∧
    a.consecutiveSuccess = s.consecutiveSuccess ∧
    a.currentConfig = s.currentConfig ∧
    a.lastAdaptationTime = s.lastAdaptationTime := by
  induction polls generalizing s with
  | nil => simp [awaitAck] at h
  | cons p rest ih =>
    rw [awaitAck] at h
    split_ifs at h with hgo
    · obtain ⟨h1, h2, h3, h4⟩ := ih _ h
      obtain ⟨k1, k2, k3, k4⟩ := foldl_onReceive_keeps p.inbound s
      exact ⟨h1.trans k1, h2.trans k2, h3.trans k3, h4.trans k4⟩
    · cases h
      exact ⟨rfl, rfl, rfl, rfl⟩

theorem sendMessageWait_keeps (message : List Nat) (env : SendEnv) (s a : State)
    (h : sendMessageWait message env s = some a) :
    a.consecutiveFails = s.consecutiveFails ∧
    a.consecutiveSuccess = s.consecutiveSuccess ∧
    a.currentConfig = s.currentConfig ∧
    a.lastAdaptationTime = s.lastAdaptationTime :=
  awaitAck_keeps env.ackStartTime env.polls (transmit message s) a h

theorem sendCycle_of_wait (message : List Nat) (env : SendEnv) (s a : State)
    (h : sendMessageWait message env s = some a) :
    sendCycle message env s = some (afterWait env a) := by
  simp [sendCycle, sendMessage, sendMessageOutcome, h, afterWait]

theorem recordOutcome_timeout (a : State) (ht : a.ackReceived = false) :
    recordOutcome a =
      { a with consecutiveFails := a.consecutiveFails + 1, consecutiveSuccess := 0 } := by
  simp [recordOutcome, ht]

theorem recordOutcome_acked (a : State) (ht : a.ackReceived = true) :
    recordOutcome a =
      { a with consecutiveSuccess := a.consecutiveSuccess + 1, consecutiveFails := 0 } := by
  simp [recordOutcome, ht]

/-- A timed-out send that finds fewer than two earlier failures only counts the failure. -/
theorem afterWait_timeout_idle (env : SendEnv) (a : State) (ht : a.ackReceived = false)
    (hf : a.consecutiveFails < 2) :
    (afterWait env a).currentConfig = a.currentConfig ∧
    (afterWait env a).consecutiveFails = a.consecutiveFails + 1 ∧
    (afterWait env a).lastAdaptationTime = a.lastAdaptationTime := by
  have hrf : (recordOutcome a).consecutiveFails = a.consecutiveFails + 1 := by
    rw [recordOutcome_timeout a ht]
  have hrs : (recordOutcome a).consecutiveSuccess = 0 := by
    rw [recordOutcome_timeout a ht]
  have hrc : (recordOutcome a).currentConfig = a.currentConfig := by
    rw [recordOutcome_timeout a ht]
  have hrl : (recordOutcome a).lastAdaptationTime = a.lastAdaptationTime := by
    rw [recordOutcome_timeout a ht]
  have hi := adaptParameters_idle (recordOutcome a) env.adaptNow env.applyNow
    (by rw [hrf]; omega) (by rw [hrs]; decide)
  simp only [afterWait, hi, nextMsg]
  exact ⟨hrc, hrf, hrl⟩

/-- A timed-out send that finds two earlier failures degrades the profile by one step. -/
theorem afterWait_timeout_degrade (env : SendEnv) (a : State) (ht : a.ackReceived = false)
    (hf : a.consecutiveFails = 2)
    (hc : 10000 ≤ elapsedMs env.adaptNow a.lastAdaptationTime) :
    afterWait env a = nextMsg (applyConfig (degradeStep a.currentConfig) env.applyNow
      { recordOutcome a with currentConfig := degradeStep a.currentConfig }) := by
  have hrf : (recordOutcome a).consecutiveFails = a.consecutiveFails + 1 := by
    rw [recordOutcome_timeout a ht]
  have hrc : (recordOutcome a).currentConfig = a.currentConfig := by
    rw [recordOutcome_timeout a ht]
  have hrl : (recordOutcome a).lastAdaptationTime = a.lastAdaptationTime := by
    rw [recordOutcome_timeout a ht]
  have hd := adaptParameters_degrade (recordOutcome a) env.adaptNow env.applyNow
    (by rw [hrl]; exact hc) (by rw [hrf]; omega)
  rw [afterWait, hd, hrc]

end Adaptive

/-- C3: from a state with `consecutiveFails = 0`, three consecutive sends whose waits each end
with `ackReceived` still false (a timeout), the cooldown having elapsed at each evaluation:
every call returns; after the first and the second the profile is the one before; after the
third it is one degrade step of it, that profile is what the radio has been set to, and
both counters are 0. -/
theorem three_timeouts_one_degrade (s0 a1 a2 a3 : Adaptive.State) (m1 m2 m3 : List Nat)
    (e1 e2 e3 : Adaptive.SendEnv)
    (h0 : s0.consecutiveFails = 0)
    (w1 : Adaptive.sendMessageWait m1 e1 s0 = some a1) (t1 : a1.ackReceived = false)
    (w2 : Adaptive.sendMessageWait m2 e2 (Adaptive.afterWait e1 a1) = some a2)
    (t2 : a2.ackReceived = false)
    (w3 : Adaptive.sendMessageWait m3 e3 (Adaptive.afterWait e2 a2) = some a3)
    (t3 : a3.ackReceived = false)
    (c3 : 10000 ≤ LoRa.elapsedMs e3.adaptNow a3.lastAdaptationTime) :
    Adaptive.sendCycle m1 e1 s0 = some (Adaptive.afterWait e1 a1) ∧
    Adaptive.sendCycle m2 e2 (Adaptive.afterWait e1 a1) = some (Adaptive.afterWait e2 a2) ∧
    Adaptive.sendCycle m3 e3 (Adaptive.afterWait e2 a2) = some (Adaptive.afterWait e3 a3) ∧
    (Adaptive.afterWait e1 a1).currentConfig = s0.currentConfig ∧
    (Adaptive.afterWait e2 a2).currentConfig = s0.currentConfig ∧
    (Adaptive.afterWait e3 a3).currentConfig = Adaptive.degradeStep s0.currentConfig ∧
    (Adaptive.afterWait e3 a3).radio.spreadingFactor = (Adaptive.degradeStep s0.currentConfig).sf ∧
    (Adaptive.afterWait e3 a3).radio.signalBandwidth = (Adaptive.degradeStep s0.currentConfig).bw ∧
    (Adaptive.afterWait e3 a3).radio.codingRate = (Adaptive.degradeStep s0.currentConfig).cr ∧
    (Adaptive.afterWait e3 a3).radio.txPower = (Adaptive.degradeStep s0.currentConfig).txPower ∧
    (Adaptive.afterWait e3 a3).consecutiveFails = 0 ∧
    (Adaptive.afterWait e3 a3).consecutiveSuccess = 0 := by
  obtain ⟨f1, _, g1, _⟩ := Adaptive.sendMessageWait_keeps m1 e1 s0 a1 w1
  obtain ⟨i1, j1, _⟩ := Adaptive.afterWait_timeout_idle e1 a1 t1 (by omega)
  obtain ⟨f2, _, g2, _⟩ := Adaptive.sendMessageWait_keeps m2 e2 _ a2 w2
  obtain ⟨i2, j2, _⟩ := Adaptive.afterWait_timeout_idle e2 a2 t2 (by omega)
  obtain ⟨f3, _, g3, _⟩ := Adaptive.sendMessageWait_keeps m3 e3 _ a3 w3
  have hd := Adaptive.afterWait_timeout_degrade e3 a3 t3 (by omega) c3
  have hcfg : a3.currentConfig = s0.currentConfig := by rw [g3, i2, g2, i1, g1]
  refine ⟨Adaptive.sendCycle_of_wait m1 e1 s0 a1 w1, Adaptive.sendCycle_of_wait m2 e2 _ a2 w2,
    Adaptive.sendCycle_of_wait m3 e3 _ a3 w3, by rw [i1, g1], by rw [i2, g2, i1, g1], ?_⟩
  rw [hd, hcfg]
  exact ⟨rfl, rfl, rfl, rfl, rfl, rfl, rfl⟩

theorem three_timeouts_one_degrade_witness :
    Adaptive.sendCycle Adaptive.sampleMessage (Adaptive.silentEnv 18000) Adaptive.run2
        = some Adaptive.run3 ∧
      Adaptive.run1.currentConfig = Adaptive.CONFIG_BALANCED ∧
      Adaptive.run2.currentConfig = Adaptive.CONFIG_BALANCED ∧
      Adaptive.run3.currentConfig = Adaptive.degradeStep Adaptive.CONFIG_BALANCED ∧
      Adaptive.run3.consecutiveFails = 0 ∧ Adaptive.run3.consecutiveSuccess = 0 :=
  have h := three_timeouts_one_degrade Adaptive.run0 Adaptive.wait1 Adaptive.wait2 Adaptive.wait3
    Adaptive.sampleMessage Adaptive.sampleMessage Adaptive.sampleMessage
    (Adaptive.silentEnv 12000) (Adaptive.silentEnv 15000) (Adaptive.silentEnv 18000)
    rfl (by decide) rfl (by decide) rfl (by decide) rfl (by decide)
  ⟨h.2.2.1, h.2.2.2.1, h.2.2.2.2.1, h.2.2.2.2.2.1, h.2.2.2.2.2.2.2.2.2.2.1,
    h.2.2.2.2.2.2.2.2.2.2.2⟩

/-- C4: when `currentConfig` is the long-range profile and a degrade trigger fires, the
profile after `adaptParameters` is again exactly the long-range profile (and that is what the
radio is set to); and for a profile within the ranges of the specification the final `else`
of the degrade chain, which assigns `CONFIG_LONG_RANGE`, is reached exactly when
sf = 12, bw = 62500, cr = 8 and txPower = 20. -/
theorem long_range_fixed_point (s : Adaptive.State) (now stamp : Int)
    (hcfg : s.currentConfig = Adaptive.CONFIG_LONG_RANGE)
    (hf : 3 ≤ s.consecutiveFails)
    (hc : 10000 ≤ LoRa.elapsedMs now s.lastAdaptationTime) :
    (Adaptive.adaptParameters now stamp s).currentConfig = ⟨12, 62500, 8, 20⟩ ∧
    (Adaptive.adaptParameters now stamp s).radio.spreadingFactor = 12 ∧
    (Adaptive.adaptParameters now stamp s).radio.signalBandwidth = 62500 ∧
    (Adaptive.adaptParameters now stamp s).radio.codingRate = 8 ∧
    (Adaptive.adaptParameters now stamp s).radio.txPower = 20 ∧
    (∀ c : Adaptive.LoRaConfig, Adaptive.ValidProfile c →
      (Adaptive.degradeSnaps c = true ↔
        c.sf = 12 ∧ c.bw = 62500 ∧ c.cr = 8 ∧ c.txPower = 20)) := by
  have hd : Adaptive.degradeStep s.currentConfig = Adaptive.CONFIG_LONG_RANGE := by
    rw [hcfg]; decide
  rw [Adaptive.adaptParameters_degrade s now stamp hc hf, hd]
  refine ⟨rfl, rfl, rfl, rfl, rfl, ?_⟩
  intro c hv
  obtain ⟨⟨_, _⟩, hbw, ⟨_, _⟩, ⟨_, _⟩⟩ := hv
  rw [Adaptive.degradeSnaps_iff]
  constructor
  · rintro ⟨h1, h2, h3, h4⟩
    refine ⟨by omega, ?_, by omega, by omega⟩
    rcases hbw with h | h | h <;> omega
  · rintro ⟨h1, h2, h3, h4⟩
    omega

theorem long_range_fixed_point_witness :
    (Adaptive.adaptParameters 10000 10001
        { Adaptive.startUp Adaptive.freshRadio 0 with
          currentConfig := Adaptive.CONFIG_LONG_RANGE, consecutiveFails := 3 }).currentConfig
      = ⟨12, 62500, 8, 20⟩ :=
  (long_range_fixed_point
    { Adaptive.startUp Adaptive.freshRadio 0 with
      currentConfig := Adaptive.CONFIG_LONG_RANGE, consecutiveFails := 3 }
    10000 10001 rfl (by decide) (by decide)).1

/-- C5: for a profile within the ranges of the specification, when the upgrade transition
fires (cooldown elapsed, fewer than 3 failures, at least 3 successes, SNR above 10.0, RSSI
above -80) the new profile is the first applicable step of the specification's upgrade
order, with every field the step does not name unchanged. -/
theorem upgrade_transition (s : Adaptive.State) (now stamp : Int)
    (hv : Adaptive.ValidProfile s.currentConfig)
    (hc : 10000 ≤ LoRa.elapsedMs now s.lastAdaptationTime)
    (hf : s.consecutiveFails < 3) (hs : 3 ≤ s.consecutiveSuccess)
    (hsnr : s.lastSnr > 10) (hrssi : s.lastRssi > -80) :
    (Adaptive.adaptParameters now stamp s).currentConfig
      = Adaptive.upgradeSpec s.lastRssi s.currentConfig := by
  rw [Adaptive.adaptParameters_upgrade s now stamp hc hf hs hsnr hrssi,
    ← Adaptive.upgradeStep_eq_spec s.lastRssi s.currentConfig hv]
  rfl

/-- The example of the specification: three successes, SNR 12.0, RSSI -75 and the profile
{9, 125000, 6, 17} give {8, 125000, 6, 17}. -/
theorem upgrade_transition_witness :
    (Adaptive.adaptParameters 10000 10001
        { Adaptive.startUp Adaptive.freshRadio 0 with
          consecutiveSuccess := 3, lastSnr := 12, lastRssi := -75 }).currentConfig
      = ⟨8, 125000, 6, 17⟩ :=
  (upgrade_transition
    { Adaptive.startUp Adaptive.freshRadio 0 with
      consecutiveSuccess := 3, lastSnr := 12, lastRssi := -75 }
    10000 10001 (by decide) (by decide) (by decide) (by decide)
    (by show (12 : ℚ) > 10; norm_num) (by decide)).trans (by decide)

/-- C6: while less than the cooldown (10000 ms) has passed since `lastAdaptationTime`,
`adaptParameters` returns the state as it found it, whatever the counters: profile, radio
settings, both counters and `lastAdaptationTime` are unchanged.  In particular, after a
transition applied at clock reading `stamp0`, an evaluation less than 10000 ms later changes
nothing. -/
theorem cooldown_guard (s : Adaptive.State) (now stamp : Int)
    (h : LoRa.elapsedMs now s.lastAdaptationTime < 10000) :
    Adaptive.adaptParameters now stamp s = s ∧
    (∀ (s0 : Adaptive.State) (now0 stamp0 : Int),
      10000 ≤ LoRa.elapsedMs now0 s0.lastAdaptationTime →
      (3 ≤ s0.consecutiveFails ∨
        (3 ≤ s0.consecutiveSuccess ∧ s0.lastSnr > 10 ∧ s0.lastRssi > -80)) →
      LoRa.elapsedMs now stamp0 < 10000 →
      Adaptive.adaptParameters now stamp (Adaptive.adaptParameters now0 stamp0 s0)
        = Adaptive.adaptParameters now0 stamp0 s0) := by
  refine ⟨Adaptive.adaptParameters_cooldown s now stamp h, ?_⟩
  intro s0 now0 stamp0 hc0 htrig hlt
  apply Adaptive.adaptParameters_cooldown
  by_cases hf : 3 ≤ s0.consecutiveFails
  · rw [Adaptive.adaptParameters_degrade s0 now0 stamp0 hc0 hf]
    exact hlt
  · rcases htrig with h3 | ⟨hs, hsnr, hrssi⟩
    · exact absurd h3 hf
    · rw [Adaptive.adaptParameters_upgrade s0 now0 stamp0 hc0 (not_le.mp hf) hs hsnr hrssi]
      exact hlt

/-- Five failures are on the counter 4 s after the start-up adaptation: nothing changes. -/
theorem cooldown_guard_witness :
    Adaptive.adaptParameters 4000 4001
        { Adaptive.startUp Adaptive.freshRadio 0 with consecutiveFails := 5 }
      = { Adaptive.startUp Adaptive.freshRadio 0 with consecutiveFails := 5 } :=
  (cooldown_guard { Adaptive.startUp Adaptive.freshRadio 0 with consecutiveFails := 5 }
    4000 4001 (by decide)).1

/-- C9: for a profile within the ranges of the specification, when the degrade transition
fires (cooldown elapsed, at least 3 consecutive failures) the new profile is the first
applicable step of the specification's degrade order, with every field the step does not
name unchanged. -/
theorem degrade_transition (s : Adaptive.State) (now stamp : Int)
    (hv : Adaptive.ValidProfile s.currentConfig)
    (hc : 10000 ≤ LoRa.elapsedMs now s.lastAdaptationTime)
    (hf : 3 ≤ s.consecutiveFails) :
    (Adaptive.adaptParameters now stamp s).currentConfig
      = Adaptive.degradeSpec s.currentConfig := by
  rw [Adaptive.adaptParameters_degrade s now stamp hc hf,
    ← Adaptive.degradeStep_eq_spec s.currentConfig hv]
  rfl

theorem degrade_transition_witness :
    (Adaptive.adaptParameters 10000 10001
        { Adaptive.startUp Adaptive.freshRadio 0 with
          currentConfig := ⟨12, 250000, 6, 17⟩, consecutiveFails := 3 }).currentConfig
      = ⟨12, 125000, 6, 17⟩ :=
  (degrade_transition
    { Adaptive.startUp Adaptive.freshRadio 0 with
      currentConfig := ⟨12, 250000, 6, 17⟩, consecutiveFails := 3 }
    10000 10001 (by decide) (by decide) (by decide)).trans (by decide)

namespace Adaptive

open LoRa

/-- The polling loop ends once the environment supplies a clock reading at or past the
deadline. -/
theorem awaitAck_returns (start : Int) (polls : List Poll) (s : State)
    (h : ∃ p ∈ polls, 1000 ≤ elapsedMs p.now start) : ∃ a, awaitAck start s polls = some a := by
  induction polls generalizing s with
  | nil => simp at h
  | cons p rest ih =>
    rw [awaitAck]
    split_ifs with hgo
    · apply ih
      obtain ⟨q, hq, hle⟩ := h
      rcases List.mem_cons.mp hq with rfl | hq
      · simp [ackTimeout] at hgo
        omega
      · exact ⟨q, hq, hle⟩
    · exact ⟨s, rfl⟩

/-- When the polling loop ends with the flag still unset, the deadline has been reached. -/
theorem awaitAck_timeout (start : Int) (polls : List Poll) (s a : State)
    (h : awaitAck start s polls = some a) (hflag : a.ackReceived = false) :
    ∃ p ∈ polls, 1000 ≤ elapsedMs p.now start := by
  induction polls generalizing s with
  | nil => simp [awaitAck] at h
  | cons p rest ih =>
    rw [awaitAck] at h
    split_ifs at h with hgo
    · obtain ⟨q, hq, hle⟩ := ih _ h
      exact ⟨q, List.mem_cons_of_mem p hq, hle⟩
    · cases h
      refine ⟨p, List.mem_cons_self p rest, ?_⟩
      simp [ackTimeout, hflag] at hgo
      exact hgo

end Adaptive

/-- C10: a reliable send whose environment supplies a clock reading at or past the deadline
leaves its polling loop in some state `a`, and right before `adaptParameters` runs: if
`ackReceived` is set, `consecutiveSuccess` is the value before the send plus 1 and
`consecutiveFails` is 0; if it is not set (the wait timed out),
`consecutiveFails` is the value before the send plus 1 and `consecutiveSuccess` is 0. -/
theorem outcome_accounting (message : List Nat) (env : Adaptive.SendEnv) (s : Adaptive.State)
    (hclock : ∃ p ∈ env.polls, 1000 ≤ LoRa.elapsedMs p.now env.ackStartTime) :
    ∃ a, Adaptive.sendMessageWait message env s = some a ∧
      Adaptive.sendMessageOutcome message env s = some (Adaptive.recordOutcome a) ∧
      Adaptive.sendMessage message env s
        = some (Adaptive.adaptParameters env.adaptNow env.applyNow (Adaptive.recordOutcome a)) ∧
      (a.ackReceived = true →
        (Adaptive.recordOutcome a).consecutiveSuccess = s.consecutiveSuccess + 1 ∧
        (Adaptive.recordOutcome a).consecutiveFails = 0) ∧
      (a.ackReceived = false →
        (Adaptive.recordOutcome a).consecutiveFails = s.consecutiveFails + 1 ∧
        (Adaptive.recordOutcome a).consecutiveSuccess = 0) := by
  obtain ⟨a, ha⟩ := Adaptive.awaitAck_returns env.ackStartTime env.polls
    (Adaptive.transmit message s) hclock
  have hw : Adaptive.sendMessageWait message env s = some a := ha
  obtain ⟨kf, ks, _, _⟩ := Adaptive.sendMessageWait_keeps message env s a hw
  refine ⟨a, hw, by simp [Adaptive.sendMessageOutcome, hw],
    by simp [Adaptive.sendMessage, Adaptive.sendMessageOutcome, hw], ?_, ?_⟩
  · intro hflag
    rw [Adaptive.recordOutcome_acked a hflag]
    exact ⟨by show a.consecutiveSuccess + 1 = _; rw [ks], rfl⟩
  · intro hflag
    rw [Adaptive.recordOutcome_timeout a hflag]
    exact ⟨by show a.consecutiveFails + 1 = _; rw [kf], rfl⟩

/-- An answered send from the start-up state: one success on the counter, no failure. -/
theorem outcome_accounting_witness :
    ∃ a, Adaptive.sendMessageOutcome Adaptive.sampleMessage (Adaptive.answeredEnv 12000)
          Adaptive.run0 = some (Adaptive.recordOutcome a) ∧
      a.ackReceived = true ∧
      (Adaptive.recordOutcome a).consecutiveSuccess = 1 ∧
      (Adaptive.recordOutcome a).consecutiveFails = 0 := by
  obtain ⟨a, hw, ho, _, hacked, _⟩ := outcome_accounting Adaptive.sampleMessage
    (Adaptive.answeredEnv 12000) Adaptive.run0 ⟨⟨13000, []⟩, by decide, by decide⟩
  have hflag : a.ackReceived = true := by
    have h2 : Adaptive.sendMessageWait Adaptive.sampleMessage (Adaptive.answeredEnv 12000)
        Adaptive.run0 = some (Adaptive.onReceive (Adaptive.transmit Adaptive.sampleMessage
          Adaptive.run0) ⟨[187, 170, 0, 3, 65, 67, 75], -60, 11⟩) := by rfl
    rw [h2] at hw
    cases hw
    rfl
  exact ⟨a, ho, hflag, (hacked hflag).1, (hacked hflag).2⟩

/-! ## Channel access (`LoRa_CAD.cpp`) -/

namespace CAD

open LoRa

/-- Without an outstanding probe no callback runs. -/
theorem deliver_idle (env : Env) (k : Nat) (s : State) (h : s.pending = false) :
    deliver env k s = s := by
  induction k with
  | zero => rfl
  | succ k ih => simp [deliver, cadEvent, h, ih]

/-- The callback for a probe that found no activity, run in a state still waiting for its
first result. -/
theorem cadEvent_first_idle (env : Env) (s : State) (hp : s.pending = true)
    (ha : s.cadAttempts = 0) (hidle : env.activity s.probes = false) :
    cadEvent env s = { s with cadAttempts := 1, channelBusy := false, pending := false } := by
  simp [cadEvent, onCadDone, hp, ha, hidle]

/-- The waiting loop when the first probe finds no activity: it ends as soon as the result
has been delivered. -/
theorem awaitCad_first_idle (env : Env) (schedule : List Nat) (s : State)
    (hsched : ∃ k ∈ schedule, 0 < k) (hp : s.pending = true) (ha : s.cadAttempts = 0)
    (hidle : env.activity s.probes = false) :
    awaitCad env s schedule
      = some { s with cadAttempts := 1, channelBusy := false, pending := false } := by
  induction schedule with
  | nil => simp at hsched
  | cons k rest ih =>
    rw [awaitCad, if_pos ha]
    cases k with
    | zero =>
      apply ih
      obtain ⟨j, hj, hpos⟩ := hsched
      rcases List.mem_cons.mp hj with rfl | hj
      · omega
      · exact ⟨j, hj, hpos⟩
    | succ k =>
      rw [deliver, cadEvent_first_idle env s hp ha hidle, deliver_idle env k _ rfl]
      cases rest <;> simp [awaitCad]

end CAD

/-- C7: when the driver reports no activity for the first probe of a send (and that result
is delivered during some pass of the waiting loop), `sendMessage` returns having issued
exactly one channel-activity test, with `cadAttempts = 1`, `channelBusy = false`, no backoff
sleep performed, and the message handed to the radio. -/
theorem cad_idle_first_probe (message : List Nat) (env : CAD.Env) (schedule : List Nat)
    (s : CAD.State) (hidle : env.activity (s.probes + 1) = false)
    (hsched : ∃ k ∈ schedule, 0 < k) :
    ∃ r, CAD.sendMessage message env schedule s = some r ∧
      r.probes = s.probes + 1 ∧ r.pending = false ∧
      r.cadAttempts = 1 ∧ r.channelBusy = false ∧
      r.backoffs = s.backoffs ∧
      r.sent = s.sent ++ [LoRa.cStr message] := by
  have hw := CAD.awaitCad_first_idle env schedule
    (CAD.channelActivityDetection { s with channelBusy := false, cadAttempts := 0 })
    hsched rfl rfl hidle
  refine ⟨{ channelBusy := false, cadAttempts := 1, probes := s.probes + 1, pending := false,
            backoffs := s.backoffs, sent := s.sent ++ [LoRa.cStr message] }, ?_,
    rfl, rfl, rfl, rfl, rfl, rfl⟩
  simp only [CAD.sendMessage, hw]
  simp [CAD.channelActivityDetection, LoRa.print]

theorem cad_idle_first_probe_witness :
    ∃ r, CAD.sendMessage [72, 105] CAD.alwaysIdle [0, 1] CAD.initialState = some r ∧
      r.probes = 1 ∧ r.pending = false ∧ r.cadAttempts = 1 ∧ r.channelBusy = false ∧
      r.backoffs = [] ∧ r.sent = [[72, 105]] :=
  cad_idle_first_probe [72, 105] CAD.alwaysIdle [0, 1] CAD.initialState rfl
    ⟨1, by decide, by decide⟩

/-- C8, the code at the failing input: the driver reports activity on every probe and the
main thread evaluates the loop test once the first callback has returned.  `cadAttempts` is
then 1, so the loop ends; `channelBusy` is still false, so the message is transmitted, after
one delivered probe result and one backoff sleep, while the second probe is outstanding. -/
theorem cad_busy_transmits_after_first_probe :
    CAD.sendMessage [72, 105] CAD.alwaysBusy [1] CAD.initialState
      = some { channelBusy := false, cadAttempts := 1, probes := 2, pending := true,
               backoffs := [100], sent := [[72, 105]] } := by
  decide

/-- Only when all ten probe results are delivered before the main thread evaluates the loop
test again does the send report the channel busy: ten probes, nine sleeps, nothing sent. -/
theorem cad_busy_all_results_first :
    CAD.sendMessage [72, 105] CAD.alwaysBusy [10] CAD.initialState
      = some { channelBusy := true, cadAttempts := 10, probes := 10, pending := false,
               backoffs := [100, 100, 100, 100, 100, 100, 100, 100, 100], sent := [] } := by
  decide

/-! ## Invariants of the adaptive program -/

namespace Adaptive

open LoRa

/-- The three ways an evaluation of `adaptParameters` can end. -/
theorem adaptParameters_cases (s : State) (now stamp : Int) :
    adaptParameters now stamp s = s ∨
    (3 ≤ s.consecutiveFails ∧ adaptParameters now stamp s =
      applyConfig (degradeStep s.currentConfig) stamp
        { s with currentConfig := degradeStep s.currentConfig }) ∨
    (s.consecutiveFails < 3 ∧ adaptParameters now stamp s =
      applyConfig (upgradeStep s.lastRssi s.currentConfig) stamp
        { s with currentConfig := upgradeStep s.lastRssi s.currentConfig }) := by
  by_cases hc : elapsedMs now s.lastAdaptationTime < 10000
  · exact Or.inl (adaptParameters_cooldown s now stamp hc)
  · have hc1 : 10000 ≤ elapsedMs now s.lastAdaptationTime := not_lt.mp hc
    by_cases hf : 3 ≤ s.consecutiveFails
    · exact Or.inr (Or.inl ⟨hf, adaptParameters_degrade s now stamp hc1 hf⟩)
    · have hf1 : s.consecutiveFails < 3 := not_le.mp hf
      by_cases hu : 3 ≤ s.consecutiveSuccess ∧ s.lastSnr > 10 ∧ s.lastRssi > -80
      · exact Or.inr (Or.inr
          ⟨hf1, adaptParameters_upgrade s now stamp hc1 hf1 hu.1 hu.2.1 hu.2.2⟩)
      · left
        simp only [adaptParameters, adaptationCooldown, adaptationThreshold]
        rw [if_neg hc, if_neg (by simpa using hf1), if_neg hu]

theorem applyConfig_synced (c : LoRaConfig) (stamp : Int) (s : State) :
    Synced (applyConfig c stamp { s with currentConfig := c }) :=
  ⟨⟨rfl, rfl, rfl, rfl⟩, ⟨rfl, rfl, rfl, rfl⟩⟩

theorem adaptParameters_synced (s : State) (now stamp : Int) (h : Synced s) :
    Synced (adaptParameters now stamp s) := by
  rcases adaptParameters_cases s now stamp with he | ⟨_, he⟩ | ⟨_, he⟩
  · rw [he]; exact h
  · rw [he]; exact applyConfig_synced _ stamp s
  · rw [he]; exact applyConfig_synced _ stamp s

theorem onReceive_synced (s : State) (p : Packet) (h : Synced s) : Synced (onReceive s p) := by
  unfold onReceive
  split
  · exact h
  · exact h
  · simp only [sendAck]
    split_ifs <;> exact h

theorem reachable_synced (s : State) (h : Reachable s) : Synced s := by
  induction h with
  | start radio stamp => exact applyConfig_synced CONFIG_BALANCED stamp (initialState radio)
  | receive p _ ih => exact onReceive_synced _ p ih
  | transmit message _ ih => exact ih
  | record _ ih =>
    unfold recordOutcome
    split_ifs <;> exact ih
  | adapt now stamp _ ih => exact adaptParameters_synced _ now stamp ih
  | count _ ih => exact ih

theorem reachable_foldl_onReceive (ps : List Packet) (s : State) (h : Reachable s) :
    Reachable (ps.foldl onReceive s) := by
  induction ps generalizing s with
  | nil => exact h
  | cons p rest ih => exact ih _ (Reachable.receive p h)

theorem reachable_awaitAck (start : Int) (polls : List Poll) (s a : State)
    (h : Reachable s) (hw : awaitAck start s polls = some a) : Reachable a := by
  induction polls generalizing s with
  | nil => simp [awaitAck] at hw
  | cons p rest ih =>
    rw [awaitAck] at hw
    split_ifs at hw with hgo
    · exact ih _ (reachable_foldl_onReceive p.inbound s h) hw
    · cases hw
      exact h

/-- A pass of the main loop leads from a reachable state to a reachable state. -/
theorem reachable_sendCycle (message : List Nat) (env : SendEnv) (s r : State)
    (h : Reachable s) (hr : sendCycle message env s = some r) : Reachable r := by
  cases hw : sendMessageWait message env s with
  | none => simp [sendCycle, sendMessage, sendMessageOutcome, hw] at hr
  | some a =>
    have ha : Reachable a :=
      reachable_awaitAck env.ackStartTime env.polls _ a (Reachable.transmit message h) hw
    rw [sendCycle_of_wait message env s a hw] at hr
    cases hr
    exact Reachable.count (Reachable.adapt env.adaptNow env.applyNow (Reachable.record ha))

theorem degradeStep_valid (c : LoRaConfig) (hv : ValidProfile c) :
    ValidProfile (degradeStep c) := by
  obtain ⟨sf, bw, cr, tx⟩ := c
  obtain ⟨⟨_, _⟩, hbw, ⟨_, _⟩, ⟨_, _⟩⟩ := hv
  simp only at *
  rcases hbw with h | h | h <;> subst h <;>
    simp only [degradeStep, CONFIG_LONG_RANGE, ValidProfile] <;> split_ifs <;>
    (refine ⟨⟨?_, ?_⟩, ?_, ⟨?_, ?_⟩, ⟨?_, ?_⟩⟩ <;> dsimp only <;> omega)

theorem upgradeStep_valid (rssi : Int) (c : LoRaConfig) (hv : ValidProfile c) :
    ValidProfile (upgradeStep rssi c) := by
  obtain ⟨sf, bw, cr, tx⟩ := c
  obtain ⟨⟨_, _⟩, hbw, ⟨_, _⟩, ⟨_, _⟩⟩ := hv
  simp only at *
  rcases hbw with h | h | h <;> subst h <;>
    simp only [upgradeStep, CONFIG_HIGH_DATA, ValidProfile] <;> split_ifs <;>
    (refine ⟨⟨?_, ?_⟩, ?_, ⟨?_, ?_⟩, ⟨?_, ?_⟩⟩ <;> dsimp only <;> omega)

theorem adaptParameters_valid (s : State) (now stamp : Int)
    (hv : ValidProfile s.currentConfig) :
    ValidProfile (adaptParameters now stamp s).currentConfig := by
  rcases adaptParameters_cases s now stamp with he | ⟨_, he⟩ | ⟨_, he⟩
  · rw [he]; exact hv
  · rw [he]; exact degradeStep_valid _ hv
  · rw [he]; exact upgradeStep_valid _ _ hv

theorem reachable_valid (s : State) (h : Reachable s) : ValidProfile s.currentConfig := by
  induction h with
  | start radio stamp => exact (by decide : ValidProfile CONFIG_BALANCED)
  | receive p _ ih => rw [(onReceive_keeps _ p).2.2.1]; exact ih
  | transmit message _ ih => exact ih
  | record _ ih =>
    unfold recordOutcome
    split_ifs <;> exact ih
  | adapt now stamp _ ih => exact adaptParameters_valid _ now stamp ih
  | count _ ih => exact ih

end Adaptive

/-- C11: an applied transition (the cooldown has elapsed and the degrade or the upgrade
condition holds, whichever step of either chain is taken) ends with both counters 0,
`lastAdaptationTime` equal to the clock reading taken by `applyConfig`, and the parameters
set on the transceiver (and the globals mirroring them) equal to the four fields of
`currentConfig`; and this agreement holds in every state reachable from start-up, a pass
of the main loop leading from reachable states to reachable states. -/
theorem transition_resets_and_applies (s : Adaptive.State) (now stamp : Int)
    (hc : 10000 ≤ LoRa.elapsedMs now s.lastAdaptationTime)
    (htrig : 3 ≤ s.consecutiveFails ∨
      (3 ≤ s.consecutiveSuccess ∧ s.lastSnr > 10 ∧ s.lastRssi > -80)) :
    (Adaptive.adaptParameters now stamp s).consecutiveFails = 0 ∧
    (Adaptive.adaptParameters now stamp s).consecutiveSuccess = 0 ∧
    (Adaptive.adaptParameters now stamp s).lastAdaptationTime = stamp ∧
    Adaptive.Synced (Adaptive.adaptParameters now stamp s) ∧
    (∀ r : Adaptive.State, Adaptive.Reachable r → Adaptive.Synced r) ∧
    (∀ (message : List Nat) (env : Adaptive.SendEnv) (r r1 : Adaptive.State),
      Adaptive.Reachable r → Adaptive.sendCycle message env r = some r1 →
      Adaptive.Reachable r1) := by
  refine ⟨?_, ?_, ?_, ?_, Adaptive.reachable_synced, Adaptive.reachable_sendCycle⟩
  all_goals
    by_cases hf : 3 ≤ s.consecutiveFails
    · rw [Adaptive.adaptParameters_degrade s now stamp hc hf]
      first | rfl | exact Adaptive.applyConfig_synced _ stamp s
    · rcases htrig with h3 | ⟨hs, hsnr, hrssi⟩
      · exact absurd h3 hf
      · rw [Adaptive.adaptParameters_upgrade s now stamp hc (not_le.mp hf) hs hsnr hrssi]
        first | rfl | exact Adaptive.applyConfig_synced _ stamp s

/-- The third timeout of the concrete run: the transition is applied at clock reading 19000. -/
theorem transition_resets_and_applies_witness :
    (Adaptive.adaptParameters 19000 19002 (Adaptive.recordOutcome Adaptive.wait3)).consecutiveFails
        = 0 ∧
      (Adaptive.adaptParameters 19000 19002 (Adaptive.recordOutcome Adaptive.wait3)).lastAdaptationTime
        = 19002 ∧
      Adaptive.Synced (Adaptive.adaptParameters 19000 19002 (Adaptive.recordOutcome Adaptive.wait3)) :=
  have h := transition_resets_and_applies (Adaptive.recordOutcome Adaptive.wait3) 19000 19002
    (by decide) (Or.inl (by decide))
  ⟨h.1, h.2.2.1, h.2.2.2.1⟩

/-- C16: the initial profile `CONFIG_BALANCED` lies within the ranges sf 7..12, bw one of
62500, 125000, 250000, cr 5..8, txPower 2..20; an evaluation of `adaptParameters` on a state
whose profile lies within the ranges, whatever the counters, link quality and clock
readings, yields a profile within the ranges; hence the profile of every reachable state
lies within the ranges. -/
theorem profile_range_invariant :
    Adaptive.ValidProfile Adaptive.CONFIG_BALANCED ∧
    (∀ (s : Adaptive.State) (now stamp : Int), Adaptive.ValidProfile s.currentConfig →
      Adaptive.ValidProfile (Adaptive.adaptParameters now stamp s).currentConfig) ∧
    (∀ r : Adaptive.State, Adaptive.Reachable r → Adaptive.ValidProfile r.currentConfig) :=
  ⟨by decide, Adaptive.adaptParameters_valid, Adaptive.reachable_valid⟩

/-- The state after the three unanswered sends of the concrete run is reachable and its
profile, {10, 125000, 6, 17}, lies within the ranges. -/
theorem profile_range_invariant_witness :
    Adaptive.Reachable Adaptive.run3 ∧ Adaptive.run3.currentConfig = ⟨10, 125000, 6, 17⟩ ∧
      Adaptive.ValidProfile Adaptive.run3.currentConfig :=
  have hr : Adaptive.Reachable Adaptive.run3 :=
    Adaptive.Reachable.count (Adaptive.Reachable.adapt _ _ (Adaptive.Reachable.record
      (Adaptive.Reachable.transmit _
    (Adaptive.Reachable.count (Adaptive.Reachable.adapt _ _ (Adaptive.Reachable.record
      (Adaptive.Reachable.transmit _
    (Adaptive.Reachable.count (Adaptive.Reachable.adapt _ _ (Adaptive.Reachable.record
      (Adaptive.Reachable.transmit _ (Adaptive.Reachable.start Adaptive.freshRadio 0))))))))))))
  ⟨hr, by decide, profile_range_invariant.2.2 Adaptive.run3 hr⟩

/-! ## Frame codec: oversize payloads and short packets -/

namespace LoRa

theorem cStr_replicate (n c : Nat) (hc : c ≠ 0) : cStr (List.replicate n c) = List.replicate n c :=
  cStr_eq _ (fun b hb => by rw [List.eq_of_mem_replicate hb]; exact hc)

end LoRa

/-- The packet `sendMessage` of the adaptive program hands to the radio. -/
theorem Adaptive.transmit_sent (message : List Nat) (s : Adaptive.State) :
    (Adaptive.transmit message s).radio.sent = s.radio.sent ++
      [170 :: 187 :: s.msgCount % 256 :: message.length % 256 :: LoRa.cStr message] := by
  simp [Adaptive.transmit, LoRa.frameBytes_eq, Adaptive.destinationAddress,
    Adaptive.localAddress]

/-- The packet `sendMessage` of the duplex program hands to the radio. -/
theorem Duplex.sendMessage_sent (message : List Nat) (d : Duplex.State) :
    (Duplex.sendMessage message d).sent = d.sent ++
      [170 :: 187 :: d.msgCount % 256 :: message.length % 256 :: LoRa.cStr message] := by
  simp [Duplex.sendMessage, LoRa.frameBytes_eq, Duplex.destinationAddress,
    Duplex.localAddress]

/-- C12, as the claim states it, fails: for a payload of 256 characters `sendMessage` does
hand a frame to the radio, and its length byte is 0, the payload length modulo 256. -/
theorem oversize_payload_is_framed :
    (List.replicate 256 97).length > 255 ∧
    (Adaptive.transmit (List.replicate 256 97) Adaptive.run0).radio.sent
      = [170 :: 187 :: 0 :: 0 :: List.replicate 256 97] ∧
    (Duplex.sendMessage (List.replicate 256 97) ⟨0, []⟩).sent
      = [170 :: 187 :: 0 :: 0 :: List.replicate 256 97] := by
  have h0 : Adaptive.run0.radio.sent = [] := rfl
  have h1 : Adaptive.run0.msgCount = 0 := rfl
  refine ⟨by rw [List.length_replicate]; decide, ?_, ?_⟩
  · rw [Adaptive.transmit_sent, LoRa.cStr_replicate 256 97 (by decide), h0, h1,
      List.length_replicate]
    rfl
  · rw [Duplex.sendMessage_sent, LoRa.cStr_replicate 256 97 (by decide),
      List.length_replicate]
    rfl

/-- C12 (amended): for every payload longer than 255 bytes the framing of `sendMessage`, in
the adaptive and in the duplex program, hands one frame to the radio; its fourth byte is
the payload length reduced modulo 256, which is not the payload length. -/
theorem oversize_payload_length_wraps (message : List Nat) (s : Adaptive.State)
    (d : Duplex.State) (hlen : 255 < message.length) :
    (Adaptive.transmit message s).radio.sent = s.radio.sent ++
      [170 :: 187 :: s.msgCount % 256 :: message.length % 256 :: LoRa.cStr message] ∧
    (Duplex.sendMessage message d).sent = d.sent ++
      [170 :: 187 :: d.msgCount % 256 :: message.length % 256 :: LoRa.cStr message] ∧
    message.length % 256 ≠ message.length := by
  refine ⟨Adaptive.transmit_sent message s, Duplex.sendMessage_sent message d, ?_⟩
  have := Nat.mod_lt message.length (by decide : 0 < 256)
  omega

theorem oversize_payload_length_wraps_witness :
    (List.replicate 300 97).length % 256 ≠ (List.replicate 300 97).length :=
  (oversize_payload_length_wraps (List.replicate 300 97) Adaptive.run0 ⟨0, []⟩
    (by rw [List.length_replicate]; decide)).2.2

/-- C13, as the claim states it, fails: a packet of three bytes is not given an outcome of
its own.  The missing length byte reads as 255, the empty message has length 0, and the
packet ends in the length-mismatch outcome, with the same console report as a packet of
five bytes whose length byte is wrong. -/
theorem short_packet_is_length_mismatch :
    LoRa.parsePacket [187, 170, 1] = LoRa.Parsed.lengthMismatch ∧
    LoRa.parsePacket [187, 170, 1] = LoRa.parsePacket [187, 170, 1, 5, 72] ∧
    Duplex.onReceive [187, 170, 1] = Duplex.Shown.lengthError ∧
    Duplex.onReceive [187, 170, 1] = Duplex.onReceive [187, 170, 1, 5, 72] := by
  decide

/-- C13 (amended): every packet of 1, 2 or 3 bytes is rejected at the length check, with the
length-mismatch outcome, and `onReceive` returns with the whole state as it was: no ACK is
handed to the radio, nothing is delivered, and `ackReceived`, `lastRssi` and `lastSnr` keep
their values. -/
theorem short_packet_rejected (s : Adaptive.State) (bytes : List Nat) (rssi : Int) (snr : ℚ)
    (h1 : 1 ≤ bytes.length) (h3 : bytes.length ≤ 3) :
    LoRa.parsePacket bytes = LoRa.Parsed.lengthMismatch ∧
      Adaptive.onReceive s ⟨bytes, rssi, snr⟩ = s ∧
      Duplex.onReceive bytes = Duplex.Shown.lengthError := by
  have hp : LoRa.parsePacket bytes = LoRa.Parsed.lengthMismatch := by
    match bytes, h1, h3 with
    | [_], _, _ => simp [LoRa.parsePacket, LoRa.read, LoRa.readAll, LoRa.toByte]
    | [_, _], _, _ => simp [LoRa.parsePacket, LoRa.read, LoRa.readAll, LoRa.toByte]
    | [_, _, _], _, _ => simp [LoRa.parsePacket, LoRa.read, LoRa.readAll, LoRa.toByte]
    | _ :: _ :: _ :: _ :: _, _, h => simp at h
  refine ⟨hp, ?_, ?_⟩
  · simp [Adaptive.onReceive, hp]
  · simp [Duplex.onReceive, hp]

theorem short_packet_rejected_witness :
    Adaptive.onReceive Adaptive.run0 ⟨[187, 170], -60, 9⟩ = Adaptive.run0 :=
  (short_packet_rejected Adaptive.run0 [187, 170] (-60) 9 (by decide) (by decide)).2.1

/-! ## Dispatch of inbound frames -/

namespace Adaptive

open LoRa

/-- Parsing a packet whose header is well formed and whose fourth byte is the number of
payload bytes. -/
theorem parsePacket_valid (d sd m : Nat) (p : List Nat) (hd : d < 256) (hs : sd < 256)
    (hm : m < 256) (hlen : p.length ≤ 255) (hp : ∀ c ∈ p, c < 256) :
    parsePacket (d :: sd :: m :: p.length :: p) = Parsed.frame d sd m p.length p := by
  rw [parsePacket_cons4, toByte_natCast p.length (by omega), toByte_natCast d hd,
    toByte_natCast sd hs, toByte_natCast m hm, readAll_eq p hp]
  simp

/-- What `onReceive` does with a packet that passes the length check. -/
theorem onReceive_frame (st : State) (pkt : Packet) (d sd m len : Nat) (p : List Nat)
    (h : parsePacket pkt.bytes = Parsed.frame d sd m len p) :
    onReceive st pkt =
      if d = localAddress then
        if p = ACK then
          { st with lastRssi := pkt.rssi, lastSnr := pkt.snr, ackReceived := true }
        else sendAck sd m { st with lastRssi := pkt.rssi, lastSnr := pkt.snr }
      else { st with lastRssi := pkt.rssi, lastSnr := pkt.snr } := by
  simp only [onReceive, h]

/-- The bytes of the packet `sendAck` hands to the radio. -/
theorem sendAck_sent (toAddress msgId : Nat) (st : State) :
    (sendAck toAddress msgId st).radio.sent =
      st.radio.sent ++ [[toAddress % 256, 187, msgId % 256, 3, 65, 67, 75]] := by
  simp [sendAck, write, print, cStr, ACK, localAddress]

end Adaptive

/-- C14: for a length-valid inbound frame with destination `d`, source `sd`, message id `m`
and payload `p`, `onReceive` hands to the radio exactly one packet, the ACK frame
`[sd, localAddress, m, 3, 'A', 'C', 'K']` (which itself parses as a length-valid frame to
`sd` with message id `m`), when `d = localAddress` and `p` is not `"ACK"`, and no packet at
all otherwise; in particular none for a broadcast frame and none in response to an ACK. -/
theorem ack_emission (st : Adaptive.State) (d sd m : Nat) (p : List Nat) (rssi : Int) (snr : ℚ)
    (hd : d < 256) (hs : sd < 256) (hm : m < 256) (hlen : p.length ≤ 255)
    (hp : ∀ c ∈ p, c < 256) :
    (Adaptive.onReceive st ⟨d :: sd :: m :: p.length :: p, rssi, snr⟩).radio.sent =
        (if d = Adaptive.localAddress ∧ p ≠ LoRa.ACK then
          st.radio.sent ++ [[sd, Adaptive.localAddress, m, 3, 65, 67, 75]]
        else st.radio.sent) ∧
    LoRa.parsePacket [sd, Adaptive.localAddress, m, 3, 65, 67, 75]
      = LoRa.Parsed.frame sd Adaptive.localAddress m 3 LoRa.ACK ∧
    (d = 255 →
      (Adaptive.onReceive st ⟨d :: sd :: m :: p.length :: p, rssi, snr⟩).radio.sent
        = st.radio.sent) ∧
    (p = LoRa.ACK →
      (Adaptive.onReceive st ⟨d :: sd :: m :: p.length :: p, rssi, snr⟩).radio.sent
        = st.radio.sent) := by
  have hparse := Adaptive.parsePacket_valid d sd m p hd hs hm hlen hp
  have hrun := Adaptive.onReceive_frame st ⟨d :: sd :: m :: p.length :: p, rssi, snr⟩
    d sd m p.length p hparse
  have hmain : (Adaptive.onReceive st ⟨d :: sd :: m :: p.length :: p, rssi, snr⟩).radio.sent =
      (if d = Adaptive.localAddress ∧ p ≠ LoRa.ACK then
        st.radio.sent ++ [[sd, Adaptive.localAddress, m, 3, 65, 67, 75]]
      else st.radio.sent) := by
    rw [hrun]
    by_cases h1 : d = Adaptive.localAddress
    · by_cases h2 : p = LoRa.ACK
      · simp [h1, h2]
      · rw [if_pos h1, if_neg h2, if_pos ⟨h1, h2⟩, Adaptive.sendAck_sent,
          Nat.mod_eq_of_lt hs, Nat.mod_eq_of_lt hm]
        rfl
    · simp [h1]
  refine ⟨hmain, ?_, ?_, ?_⟩
  · exact Adaptive.parsePacket_valid sd Adaptive.localAddress m LoRa.ACK hs (by decide) hm
      (by decide) (by decide)
  · intro h255
    rw [hmain, if_neg]
    rintro ⟨h1, _⟩
    rw [h255] at h1
    exact absurd h1 (by decide)
  · intro hack
    rw [hmain, if_neg]
    rintro ⟨_, h2⟩
    exact h2 hack

/-- A message for this device from 0xAA with id 7 is answered by one ACK to 0xAA with id 7. -/
theorem ack_emission_witness :
    (Adaptive.onReceive Adaptive.run0 ⟨[187, 170, 7, 2, 72, 105], -60, 9⟩).radio.sent
      = [[170, 187, 7, 3, 65, 67, 75]] :=
  (ack_emission Adaptive.run0 187 170 7 [72, 105] (-60) 9 (by decide) (by decide) (by decide)
    (by decide) (by decide)).1.trans (by decide)

/-- C15: for a length-valid inbound frame, `ackReceived` after `onReceive` is true when the
destination is `localAddress` and the payload is the three characters `ACK`, whatever the
source address and the message id, and otherwise has the value it had before; in
particular a broadcast frame carrying `ACK` leaves it unchanged. -/
theorem ack_resolution (st : Adaptive.State) (d sd m : Nat) (p : List Nat) (rssi : Int) (snr : ℚ)
    (hd : d < 256) (hs : sd < 256) (hm : m < 256) (hlen : p.length ≤ 255)
    (hp : ∀ c ∈ p, c < 256) :
    (Adaptive.onReceive st ⟨d :: sd :: m :: p.length :: p, rssi, snr⟩).ackReceived =
        (if d = Adaptive.localAddress ∧ p = [65, 67, 75] then true else st.ackReceived) ∧
    (d = 255 →
      (Adaptive.onReceive st ⟨d :: sd :: m :: p.length :: p, rssi, snr⟩).ackReceived
        = st.ackReceived) := by
  have hparse := Adaptive.parsePacket_valid d sd m p hd hs hm hlen hp
  have hrun := Adaptive.onReceive_frame st ⟨d :: sd :: m :: p.length :: p, rssi, snr⟩
    d sd m p.length p hparse
  have hmain : (Adaptive.onReceive st ⟨d :: sd :: m :: p.length :: p, rssi, snr⟩).ackReceived =
      (if d = Adaptive.localAddress ∧ p = [65, 67, 75] then true else st.ackReceived) := by
    rw [hrun]
    by_cases h1 : d = Adaptive.localAddress
    · by_cases h2 : p = LoRa.ACK
      · have h2' : p = [65, 67, 75] := h2
        simp [h1, h2']
        rfl
      · have h2' : ¬ p = [65, 67, 75] := h2
        rw [if_pos h1, if_neg h2, if_neg (fun h => h2' h.2)]
        rfl
    · simp [h1]
  refine ⟨hmain, ?_⟩
  intro h255
  rw [hmain, if_neg]
  rintro ⟨h1, _⟩
  rw [h255] at h1
  exact absurd h1 (by decide)

/-- An ACK for this device from an arbitrary sender (0x42) with an arbitrary id (200) sets
the flag of a send that is waiting. -/
theorem ack_resolution_witness :
    (Adaptive.onReceive Adaptive.wait1 ⟨[187, 66, 200, 3, 65, 67, 75], -60, 9⟩).ackReceived
      = true :=
  (ack_resolution Adaptive.wait1 187 66 200 [65, 67, 75] (-60) 9 (by decide) (by decide)
    (by decide) (by decide) (by decide)).1.trans (by decide)

/-! ## Priority of the two transitions, and the power guard -/

namespace Adaptive

open LoRa

/-- On a profile within the ranges the two chains never produce the same profile. -/
theorem degradeStep_ne_upgradeStep (rssi : Int) (c : LoRaConfig) (hv : ValidProfile c) :
    degradeStep c ≠ upgradeStep rssi c := by
  obtain ⟨sf, bw, cr, tx⟩ := c
  obtain ⟨⟨_, _⟩, hbw, ⟨_, _⟩, ⟨_, _⟩⟩ := hv
  simp only at *
  rcases hbw with h | h | h <;> subst h <;>
    simp only [degradeStep, upgradeStep, CONFIG_LONG_RANGE, CONFIG_HIGH_DATA] <;> split_ifs <;>
    simp only [ne_eq, LoRaConfig.mk.injEq] <;> omega

end Adaptive

/-- C17: when the cooldown has elapsed and both the degrade condition (at least 3 failures)
and the upgrade condition (at least 3 successes, SNR above 10.0, RSSI above -80) hold,
`adaptParameters` applies the degrade step of the current profile and nothing else, and on
a profile within the ranges that is not what the upgrade step would give.  Every
evaluation ends in exactly one of three ways: the state unchanged, the degrade step alone
applied (then there were at least 3 failures), or the upgrade step alone applied (then
there were fewer than 3 failures). -/
theorem degrade_has_priority (s : Adaptive.State) (now stamp : Int)
    (hc : 10000 ≤ LoRa.elapsedMs now s.lastAdaptationTime)
    (hf : 3 ≤ s.consecutiveFails) (_hs : 3 ≤ s.consecutiveSuccess)
    (_hsnr : s.lastSnr > 10) (_hrssi : s.lastRssi > -80) :
    Adaptive.adaptParameters now stamp s =
      Adaptive.applyConfig (Adaptive.degradeStep s.currentConfig) stamp
        { s with currentConfig := Adaptive.degradeStep s.currentConfig } ∧
    (Adaptive.adaptParameters now stamp s).currentConfig
      = Adaptive.degradeStep s.currentConfig ∧
    (Adaptive.ValidProfile s.currentConfig →
      (Adaptive.adaptParameters now stamp s).currentConfig
        ≠ Adaptive.upgradeStep s.lastRssi s.currentConfig) ∧
    (∀ (r : Adaptive.State) (t u : Int),
      Adaptive.adaptParameters t u r = r ∨
      (3 ≤ r.consecutiveFails ∧ Adaptive.adaptParameters t u r =
        Adaptive.applyConfig (Adaptive.degradeStep r.currentConfig) u
          { r with currentConfig := Adaptive.degradeStep r.currentConfig }) ∨
      (r.consecutiveFails < 3 ∧ Adaptive.adaptParameters t u r =
        Adaptive.applyConfig (Adaptive.upgradeStep r.lastRssi r.currentConfig) u
          { r with currentConfig := Adaptive.upgradeStep r.lastRssi r.currentConfig })) := by
  have hd := Adaptive.adaptParameters_degrade s now stamp hc hf
  refine ⟨hd, by rw [hd]; rfl, ?_, fun r t u => Adaptive.adaptParameters_cases r t u⟩
  intro hv
  rw [hd]
  exact Adaptive.degradeStep_ne_upgradeStep s.lastRssi s.currentConfig hv

/-- Both conditions hold on the start-up profile: the result is {10, 125000, 6, 17}, the
degrade step, not {8, 125000, 6, 17}. -/
theorem degrade_has_priority_witness :
    (Adaptive.adaptParameters 10000 10001
        { Adaptive.run0 with consecutiveFails := 3, consecutiveSuccess := 3, lastSnr := 12,
                             lastRssi := -75 }).currentConfig = ⟨10, 125000, 6, 17⟩ :=
  (degrade_has_priority
    { Adaptive.run0 with consecutiveFails := 3, consecutiveSuccess := 3, lastSnr := 12,
                         lastRssi := -75 }
    10000 10001 (by decide) (by decide) (by decide)
    (by show (12 : ℚ) > 10; norm_num) (by decide)).2.1.trans (by decide)

set_option maxRecDepth 100000 in
/-- C18, the code at the failing input: profile {7, 250000, 5, 17}, three successes, SNR 12
and RSSI -75 (not above -70), cooldown elapsed.  The power-reduction step is skipped, the
final `else` assigns `CONFIG_HIGH_DATA`, and txPower drops from 17 to 15.  The state is
reached from start-up by twelve answered sends on such a link; three more give the drop. -/
theorem weak_link_power_drop :
    (Adaptive.adaptParameters 10000 10001
        { Adaptive.run0 with currentConfig := ⟨7, 250000, 5, 17⟩, consecutiveSuccess := 3,
                             lastSnr := 12, lastRssi := -75 }).currentConfig
      = ⟨7, 250000, 5, 15⟩ ∧
    (Adaptive.linkRun (-75) 12 12 12000 Adaptive.run0).map (fun s => (s.currentConfig, s.lastRssi))
      = some (⟨7, 250000, 5, 17⟩, -75) ∧
    (Adaptive.linkRun (-75) 12 15 12000 Adaptive.run0).map (fun s => (s.currentConfig, s.lastRssi))
      = some (⟨7, 250000, 5, 15⟩, -75) := by
  decide

/-! ## Convergence of the degrade chain -/

namespace Adaptive

theorem degradeIter_succ (n : Nat) (c : LoRaConfig) :
    degradeIter (n + 1) c = degradeStep (degradeIter n c) := by
  induction n generalizing c with
  | zero => rfl
  | succ n ih =>
    show degradeIter (n + 1) (degradeStep c) = _
    rw [ih (degradeStep c)]
    rfl

theorem stepsToLongRange_le (c : LoRaConfig) (hv : ValidProfile c) :
    stepsToLongRange c ≤ 28 := by
  obtain ⟨sf, bw, cr, tx⟩ := c
  obtain ⟨⟨_, _⟩, hbw, ⟨_, _⟩, ⟨_, _⟩⟩ := hv
  simp only at *
  rcases hbw with h | h | h <;> subst h <;> (simp [stepsToLongRange]; omega)

theorem stepsToLongRange_eq_zero (c : LoRaConfig) (hv : ValidProfile c) :
    stepsToLongRange c = 0 ↔ c = CONFIG_LONG_RANGE := by
  obtain ⟨sf, bw, cr, tx⟩ := c
  obtain ⟨⟨_, _⟩, hbw, ⟨_, _⟩, ⟨_, _⟩⟩ := hv
  simp only at *
  rcases hbw with h | h | h <;> subst h <;>
    (simp [stepsToLongRange, CONFIG_LONG_RANGE]; try omega)

/-- Away from the long-range profile the degrade step is a single step, and it brings the
profile one step closer. -/
theorem degradeStep_single (c : LoRaConfig) (hv : ValidProfile c)
    (hpos : 0 < stepsToLongRange c) :
    SingleDegrade c (degradeStep c) ∧ stepsToLongRange (degradeStep c) + 1 = stepsToLongRange c := by
  obtain ⟨sf, bw, cr, tx⟩ := c
  obtain ⟨⟨_, _⟩, hbw, ⟨_, _⟩, ⟨_, _⟩⟩ := hv
  simp only at *
  rcases hbw with h | h | h <;> subst h <;>
    simp only [degradeStep, CONFIG_LONG_RANGE] <;> split_ifs <;>
    simp [stepsToLongRange, SingleDegrade] at hpos ⊢ <;> omega

theorem degradeIter_converges (n : Nat) (c : LoRaConfig) (hv : ValidProfile c)
    (hn : stepsToLongRange c = n) :
    degradeIter n c = CONFIG_LONG_RANGE ∧
    ∀ k, k < n → degradeIter k c ≠ CONFIG_LONG_RANGE ∧
      SingleDegrade (degradeIter k c) (degradeIter (k + 1) c) := by
  induction n generalizing c with
  | zero => exact ⟨(stepsToLongRange_eq_zero c hv).mp hn, fun k hk => absurd hk (by omega)⟩
  | succ n ih =>
    have hpos : 0 < stepsToLongRange c := by omega
    obtain ⟨hsingle, hdec⟩ := degradeStep_single c hv hpos
    obtain ⟨hend, hbefore⟩ := ih (degradeStep c) (degradeStep_valid c hv) (by omega)
    refine ⟨hend, ?_⟩
    intro k hk
    cases k with
    | zero =>
      refine ⟨?_, hsingle⟩
      intro hc
      have := (stepsToLongRange_eq_zero c hv).mpr hc
      omega
    | succ k => exact hbefore k (by omega)

end Adaptive

/-- C19: for a profile within the ranges, iterating the degrade step reaches the long-range
profile {12, 62500, 8, 20} after `stepsToLongRange` applications, a number that is at most
28; before that point no iterate is the long-range profile and each application changes
exactly one field by exactly one step. -/
theorem degrade_converges (c : Adaptive.LoRaConfig) (hv : Adaptive.ValidProfile c) :
    Adaptive.stepsToLongRange c ≤ 28 ∧
    Adaptive.degradeIter (Adaptive.stepsToLongRange c) c = ⟨12, 62500, 8, 20⟩ ∧
    ∀ k, k < Adaptive.stepsToLongRange c →
      Adaptive.degradeIter k c ≠ ⟨12, 62500, 8, 20⟩ ∧
      Adaptive.SingleDegrade (Adaptive.degradeIter k c) (Adaptive.degradeIter (k + 1) c) :=
  ⟨Adaptive.stepsToLongRange_le c hv, Adaptive.degradeIter_converges _ c hv rfl⟩

/-- The profile furthest from long range, {7, 250000, 5, 2}, needs all 28 applications. -/
theorem degrade_converges_witness :
    Adaptive.stepsToLongRange ⟨7, 250000, 5, 2⟩ = 28 ∧
      Adaptive.degradeIter 28 ⟨7, 250000, 5, 2⟩ = ⟨12, 62500, 8, 20⟩ ∧
      Adaptive.degradeIter 27 ⟨7, 250000, 5, 2⟩ ≠ ⟨12, 62500, 8, 20⟩ :=
  have h := degrade_converges ⟨7, 250000, 5, 2⟩ (by decide)
  ⟨by decide, h.2.1, (h.2.2 27 (by decide)).1⟩
